import Mathlib

/-!
Verification development for the lego-toolbox DNS-01 provider toolkit.

The Go sources are embedded shallowly: each provider package's pure control
flow (constructor validation, lifecycle-map bookkeeping, the order of lock
acquisitions and backend calls) becomes a Lean function.  Backend HTTP call
outcomes are passed in as explicit result values, and every operation
returns, besides its result and the updated lifecycle map, the ordered list
of lock / network events it performed, so that locking discipline can be
stated as a property of the event trace.
-/

/-- Outcome of a single backend / library call: the Go `(value, error)` pair. -/
inductive BRes (α : Type) where
  | ok (val : α)
  | err (msg : String)
deriving DecidableEq

/-- Outcome of a provider constructor.  Go constructors return
`(*DNSProvider, error)`; a nil-pointer dereference inside the constructor is
a run-time panic, modelled by the third case. -/
inductive Ctor (α : Type) where
  | ok (val : α)
  | err (msg : String)
  | panics
deriving DecidableEq

/-- Events observable during a Present/CleanUp run: mutex operations on the
adapter-instance lock and backend network calls (call name and arguments). -/
inductive Ev where
  | lock
  | unlock
  | net (call : String) (args : List String)
deriving DecidableEq

/-- `heldDuringNet evs d = true` iff some network call in `evs` happens while
the lock depth (starting at `d`) is positive, i.e. while the mutex is held. -/
def heldDuringNet : List Ev → Nat → Bool
  | [], _ => false
  | Ev.lock :: es, d => heldDuringNet es (d + 1)
  | Ev.unlock :: es, d => heldDuringNet es (d - 1)
  | Ev.net _ _ :: es, d => (d != 0) || heldDuringNet es d

/-- Go map lookup `v, ok := m[k]` over the association-list model of a map. -/
def mapLookup {α : Type} : List (String × α) → String → Option α
  | [], _ => none
  | p :: m, k => if p.1 == k then some p.2 else mapLookup m k

/-- Go map assignment `m[k] = v`: overwrite any previous binding of `k`. -/
def mapInsert {α : Type} (m : List (String × α)) (k : String) (v : α) :
    List (String × α) :=
  (k, v) :: m.filter (fun p => p.1 != k)

/-- Go `delete(m, k)`. -/
def mapErase {α : Type} (m : List (String × α)) (k : String) :
    List (String × α) :=
  m.filter (fun p => p.1 != k)

/-- Modelled from the spec: `dns01.GetChallengeInfo` (external go-acme/lego
library) derives `effectiveFQDN` in trailing-dot form by prefixing the
challenge label to the domain. -/
def effectiveFQDN (domain : String) : String :=
  "_acme-challenge." ++ domain ++ "."

/-- Drop a single trailing dot from a character list, if present. -/
def unFqdnChars : List Char → List Char
  | [] => []
  | [c] => if c = '.' then [] else [c]
  | c :: cs => c :: unFqdnChars cs

/-- Modelled from the spec: `dns01.UnFqdn` (external go-acme/lego library)
drops the trailing dot of a FQDN. -/
def unFqdn (s : String) : String :=
  String.mk (unFqdnChars s.toList)

/-- Modelled from the spec: the TXT value is derived from `keyAuth`; the
hashing itself is out of scope, so the derivation is kept abstract as the
identity on `keyAuth`. -/
def challengeValue (keyAuth : String) : String := keyAuth

/-- Split a character list at dots: the label structure of a domain name. -/
def splitLabelsAux : List Char → List Char → List (List Char)
  | [], acc => [acc.reverse]
  | c :: cs, acc =>
      if c = '.' then acc.reverse :: splitLabelsAux cs []
      else splitLabelsAux cs (c :: acc)

/-- The DNS labels of a (non-trailing-dot) name, left to right. -/
def labels (s : String) : List String :=
  (splitLabelsAux s.toList []).map (fun l => String.mk l)

/-- Rejoin labels with dots. -/
def joinLabels (ls : List String) : String :=
  String.intercalate "." ls

/-- Modelled from the spec: `dns01.FindZoneByFqdn` (external go-acme/lego
library) walks DNS label boundaries from the full name toward the root and
returns the first — hence longest — candidate that is a known zone. -/
def findZoneLabels (known : List (List String)) : List String → Option (List String)
  | [] => if [] ∈ known then some [] else none
  | l :: ls => if (l :: ls) ∈ known then some (l :: ls) else findZoneLabels known ls

/-- Modelled from the spec: the subdomain is the FQDN with the matched zone
suffix and its separating dot removed (empty at the zone apex). -/
def extractSubDomainLabels (fqdn zone : List String) : Option (List String) :=
  let n := fqdn.length - zone.length
  if fqdn.drop n = zone then some (fqdn.take n) else none

/-- Modelled from the spec: string-level zone resolution over a set of zones
known to the backend account (names without trailing dots). -/
def findZoneByFqdn (known : List String) (fqdn : String) : Option String :=
  (findZoneLabels (known.map labels) (labels (unFqdn fqdn))).map joinLabels

/-- Modelled from the spec: string-level subdomain extraction; both arguments
may carry a trailing dot, which is irrelevant to the label structure. -/
def extractSubDomain (fqdn zone : String) : Option String :=
  (extractSubDomainLabels (labels (unFqdn fqdn)) (labels (unFqdn zone))).map joinLabels

example : labels "_acme-challenge.foo.bar.example.com" =
    ["_acme-challenge", "foo", "bar", "example", "com"] := by decide

example : findZoneByFqdn ["example.com", "bar.example.com"]
    "_acme-challenge.foo.bar.example.com." = some "bar.example.com" := by decide

example : extractSubDomain "_acme-challenge.foo.bar.example.com." "bar.example.com." =
    some "_acme-challenge.foo" := by decide

/-! ### Constructor validation (src/providers/dns/variomedia/variomedia.go,
hosttech/hosttech.go, gandiv5/gandiv5.go, loopia/loopia.go)

Each `Config` structure keeps the fields that the constructor inspects;
durations are nanosecond counts as in Go's `time.Duration`. -/

namespace Variomedia

structure Config where
  apiToken : String
  propagationTimeout : Int
  pollingInterval : Int
  sequenceInterval : Int
  ttl : Int
deriving DecidableEq

structure Provider where
  config : Config
deriving DecidableEq

/-- `NewDNSProviderConfig` (variomedia.go:112–128).  The function reads
`config.APIToken` without a nil guard, so a nil config is a nil-pointer
dereference: a run-time panic. -/
def newDNSProviderConfig : Option Config → Ctor Provider
  | none => Ctor.panics
  | some c =>
      if c.apiToken == "" then Ctor.err "variomedia: missing credentials"
      else Ctor.ok { config := c }

end Variomedia

namespace Hosttech

structure Config where
  apiKey : String
  propagationTimeout : Int
  pollingInterval : Int
  ttl : Int
deriving DecidableEq

structure Provider where
  config : Config
  recordIDs : List (String × Int)
deriving DecidableEq

/-- `NewDNSProviderConfig` (hosttech.go:107–123): nil guard, credential
check, then construction with an empty record-ID map. -/
def newDNSProviderConfig : Option Config → Ctor Provider
  | none => Ctor.err "hosttech: the configuration of the DNS provider is nil"
  | some c =>
      if c.apiKey == "" then Ctor.err "hosttech: missing credentials"
      else Ctor.ok { config := c, recordIDs := [] }

end Hosttech

namespace Gandiv5

/-- `minTTL` (gandiv5.go:22). -/
def minTTL : Int := 300

structure Config where
  baseURL : String
  apiKey : String
  personalAccessToken : String
  propagationTimeout : Int
  pollingInterval : Int
  ttl : Int
deriving DecidableEq

structure Provider where
  config : Config
  inProgressFQDNs : List (String × (String × String))
deriving DecidableEq

/-- `NewDNSProviderConfig` (gandiv5.go:124–161): nil guard, credential
check, TTL-minimum check (construction fails when `ttl < minTTL`), then
construction with an empty in-progress map.  The optional base-URL parse is
not modelled (no claim inspects it). -/
def newDNSProviderConfig : Option Config → Ctor Provider
  | none => Ctor.err "gandiv5: the configuration of the DNS provider is nil"
  | some c =>
      if c.apiKey == "" && c.personalAccessToken == "" then
        Ctor.err "gandiv5: credentials information are missing"
      else if c.ttl < minTTL then
        Ctor.err ("gandiv5: invalid TTL, TTL (" ++ toString c.ttl ++
          ") must be greater than " ++ toString minTTL)
      else Ctor.ok { config := c, inProgressFQDNs := [] }

end Gandiv5

namespace Loopia

/-- `minTTL` (loopia.go:18). -/
def minTTL : Int := 300

structure Config where
  baseURL : String
  apiUser : String
  apiPassword : String
  propagationTimeout : Int
  pollingInterval : Int
  ttl : Int
deriving DecidableEq

structure Provider where
  config : Config
  inProgressInfo : List (String × Int)
deriving DecidableEq

/-- `NewDNSProviderConfig` (loopia.go:126–156): nil guard and credential
check, but a TTL below the minimum is silently raised to 300
(`if config.TTL < 300 { config.TTL = 300 }`) instead of failing. -/
def newDNSProviderConfig : Option Config → Ctor Provider
  | none => Ctor.err "loopia: the configuration of the DNS provider is nil"
  | some c =>
      if c.apiUser == "" || c.apiPassword == "" then
        Ctor.err "loopia: credentials missing"
      else
        let c2 := if c.ttl < 300 then { c with ttl := 300 } else c
        Ctor.ok { config := c2, inProgressInfo := [] }

end Loopia

/-! ### Record lifecycle operations

Each operation takes the current lifecycle map, the challenge arguments and
the outcomes of the backend calls it would issue (in source order), and
returns its result, the updated map, and the ordered event trace. -/

/-- Result, updated lifecycle map, and event trace of one Present/CleanUp. -/
structure Out (σ : Type) where
  res : BRes Unit
  st : σ
  evs : List Ev
deriving DecidableEq

namespace Hosttech

/-- `Present` (hosttech.go:132–169): resolve the zone (network), fetch the
zone object (network), extract the subdomain, create the record (network),
then store `token ↦ newRecord.ID` under the instance lock. -/
def present (st : List (String × Int)) (domain token : String)
    (findZone : BRes String) (getZone : BRes Int) (addRecord : BRes Int) :
    Out (List (String × Int)) :=
  match findZone with
  | BRes.err e =>
      { res := BRes.err ("hosttech: could not find zone for domain \"" ++ domain ++ "\": " ++ e),
        st := st, evs := [Ev.net "FindZoneByFqdn" [effectiveFQDN domain]] }
  | BRes.ok authZone =>
    match getZone with
    | BRes.err e =>
        { res := BRes.err ("hosttech: could not find zone for domain \"" ++ domain ++
            "\" (" ++ authZone ++ "): " ++ e),
          st := st,
          evs := [Ev.net "FindZoneByFqdn" [effectiveFQDN domain],
                  Ev.net "GetZone" [unFqdn authZone]] }
    | BRes.ok zoneID =>
      match extractSubDomain (effectiveFQDN domain) authZone with
      | none =>
          { res := BRes.err "hosttech: unable to extract sub domain", st := st,
            evs := [Ev.net "FindZoneByFqdn" [effectiveFQDN domain],
                    Ev.net "GetZone" [unFqdn authZone]] }
      | some subDomain =>
        match addRecord with
        | BRes.err e =>
            { res := BRes.err ("hosttech: " ++ e), st := st,
              evs := [Ev.net "FindZoneByFqdn" [effectiveFQDN domain],
                      Ev.net "GetZone" [unFqdn authZone],
                      Ev.net "AddRecord" [toString zoneID, subDomain]] }
        | BRes.ok newID =>
            { res := BRes.ok (), st := mapInsert st token newID,
              evs := [Ev.net "FindZoneByFqdn" [effectiveFQDN domain],
                      Ev.net "GetZone" [unFqdn authZone],
                      Ev.net "AddRecord" [toString zoneID, subDomain],
                      Ev.lock, Ev.unlock] }

/-- `CleanUp` (hosttech.go:172–201): resolve the zone (network), fetch the
zone object (network), look up the tracked record ID under the lock — an
unknown token is an error — then delete the record (network).  The map entry
is never removed. -/
def cleanUp (st : List (String × Int)) (domain token : String)
    (findZone : BRes String) (getZone : BRes Int) (deleteRecord : BRes Unit) :
    Out (List (String × Int)) :=
  match findZone with
  | BRes.err e =>
      { res := BRes.err ("hosttech: could not find zone for domain \"" ++ domain ++ "\": " ++ e),
        st := st, evs := [Ev.net "FindZoneByFqdn" [effectiveFQDN domain]] }
  | BRes.ok authZone =>
    match getZone with
    | BRes.err e =>
        { res := BRes.err ("hosttech: could not find zone for domain \"" ++ domain ++
            "\" (" ++ authZone ++ "): " ++ e),
          st := st,
          evs := [Ev.net "FindZoneByFqdn" [effectiveFQDN domain],
                  Ev.net "GetZone" [unFqdn authZone]] }
    | BRes.ok zoneID =>
      match mapLookup st token with
      | none =>
          { res := BRes.err ("hosttech: unknown record ID for '" ++
              effectiveFQDN domain ++ "' '" ++ token ++ "'"),
            st := st,
            evs := [Ev.net "FindZoneByFqdn" [effectiveFQDN domain],
                    Ev.net "GetZone" [unFqdn authZone], Ev.lock, Ev.unlock] }
      | some recordID =>
        match deleteRecord with
        | BRes.err e =>
            { res := BRes.err ("hosttech: " ++ e), st := st,
              evs := [Ev.net "FindZoneByFqdn" [effectiveFQDN domain],
                      Ev.net "GetZone" [unFqdn authZone], Ev.lock, Ev.unlock,
                      Ev.net "DeleteRecord" [toString zoneID, toString recordID]] }
        | BRes.ok _ =>
            { res := BRes.ok (), st := st,
              evs := [Ev.net "FindZoneByFqdn" [effectiveFQDN domain],
                      Ev.net "GetZone" [unFqdn authZone], Ev.lock, Ev.unlock,
                      Ev.net "DeleteRecord" [toString zoneID, toString recordID]] }

end Hosttech

namespace Gandiv5

/-- `Present` (gandiv5.go:164–196): resolve the zone (network), extract the
subdomain, then — holding the instance mutex (`defer` releases it at return)
— create the TXT record (network) and store the in-progress info under the
key `info.EffectiveFQDN` (not under the token). -/
def present (st : List (String × (String × String))) (domain _token : String)
    (findZone : BRes String) (addTXT : BRes Unit) :
    Out (List (String × (String × String))) :=
  match findZone with
  | BRes.err e =>
      { res := BRes.err ("gandiv5: could not find zone for domain \"" ++ domain ++ "\": " ++ e),
        st := st, evs := [Ev.net "FindZoneByFqdn" [effectiveFQDN domain]] }
  | BRes.ok authZone =>
    match extractSubDomain (effectiveFQDN domain) authZone with
    | none =>
        { res := BRes.err "gandiv5: unable to extract sub domain", st := st,
          evs := [Ev.net "FindZoneByFqdn" [effectiveFQDN domain]] }
    | some subDomain =>
      match addTXT with
      | BRes.err e =>
          { res := BRes.err e, st := st,
            evs := [Ev.net "FindZoneByFqdn" [effectiveFQDN domain], Ev.lock,
                    Ev.net "AddTXTRecord" [unFqdn authZone, subDomain], Ev.unlock] }
      | BRes.ok _ =>
          { res := BRes.ok (),
            st := mapInsert st (effectiveFQDN domain) (authZone, subDomain),
            evs := [Ev.net "FindZoneByFqdn" [effectiveFQDN domain], Ev.lock,
                    Ev.net "AddTXTRecord" [unFqdn authZone, subDomain], Ev.unlock] }

/-- `CleanUp` (gandiv5.go:199–220): under the instance mutex (`defer`
releases it at return), look up `info.EffectiveFQDN`; if untracked, return
nil silently; otherwise remove the map entry and then delete the TXT record
(network) — the entry is gone whether or not the delete succeeds. -/
def cleanUp (st : List (String × (String × String))) (domain _token : String)
    (deleteTXT : BRes Unit) : Out (List (String × (String × String))) :=
  match mapLookup st (effectiveFQDN domain) with
  | none => { res := BRes.ok (), st := st, evs := [Ev.lock, Ev.unlock] }
  | some info =>
      let st2 := mapErase st (effectiveFQDN domain)
      match deleteTXT with
      | BRes.err e =>
          { res := BRes.err ("gandiv5: " ++ e), st := st2,
            evs := [Ev.lock, Ev.net "DeleteTXTRecord" [unFqdn info.1, info.2], Ev.unlock] }
      | BRes.ok _ =>
          { res := BRes.ok (), st := st2,
            evs := [Ev.lock, Ev.net "DeleteTXTRecord" [unFqdn info.1, info.2], Ev.unlock] }

end Gandiv5

namespace Loopia

/-- `Present` (loopia.go:165–196): `splitDomain` resolves the zone (network)
and extracts the subdomain, then the TXT record is added (network) and the
record list fetched back (network); only then is the instance mutex taken
(`defer` releases it) and, if a record with the challenge value is found,
`token ↦ recordID` is stored.  Records are `(recordID, rdata)` pairs. -/
def present (st : List (String × Int)) (domain token keyAuth : String)
    (findZone : BRes String) (addTXT : BRes Unit)
    (getTXT : BRes (List (Int × String))) : Out (List (String × Int)) :=
  match findZone with
  | BRes.err e =>
      { res := BRes.err ("loopia: could not find zone: " ++ e), st := st,
        evs := [Ev.net "FindZoneByFqdn" [effectiveFQDN domain]] }
  | BRes.ok authZone =>
    match extractSubDomain (effectiveFQDN domain) authZone with
    | none =>
        { res := BRes.err "loopia: unable to extract sub domain", st := st,
          evs := [Ev.net "FindZoneByFqdn" [effectiveFQDN domain]] }
    | some subDomain =>
      match addTXT with
      | BRes.err e =>
          { res := BRes.err ("loopia: failed to add TXT record: " ++ e), st := st,
            evs := [Ev.net "FindZoneByFqdn" [effectiveFQDN domain],
                    Ev.net "AddTXTRecord" [unFqdn authZone, subDomain]] }
      | BRes.ok _ =>
        match getTXT with
        | BRes.err e =>
            { res := BRes.err ("loopia: failed to get TXT records: " ++ e), st := st,
              evs := [Ev.net "FindZoneByFqdn" [effectiveFQDN domain],
                      Ev.net "AddTXTRecord" [unFqdn authZone, subDomain],
                      Ev.net "GetTXTRecords" [unFqdn authZone, subDomain]] }
        | BRes.ok txtRecords =>
          let found := txtRecords.find? (fun r => r.2 == challengeValue keyAuth)
          { res :=
              match found with
              | some _ => BRes.ok ()
              | none => BRes.err "loopia: failed to find the stored TXT record",
            st :=
              match found with
              | some r => mapInsert st token r.1
              | none => st,
            evs := [Ev.net "FindZoneByFqdn" [effectiveFQDN domain],
                    Ev.net "AddTXTRecord" [unFqdn authZone, subDomain],
                    Ev.net "GetTXTRecords" [unFqdn authZone, subDomain],
                    Ev.lock, Ev.unlock] }

/-- `CleanUp` (loopia.go:199–232): `splitDomain` resolves the zone
(network); then, holding the instance mutex for the rest of the call
(`defer`), remove the TXT record whose ID is `d.inProgressInfo[token]` — for
an unknown token the Go map read yields the zero value `0` — fetch the
remaining records (network), and if none are left remove the subdomain
(network).  The map entry is never removed. -/
def cleanUp (st : List (String × Int)) (domain token : String)
    (findZone : BRes String) (removeTXT : BRes Unit)
    (getTXT : BRes (List (Int × String))) (removeSub : BRes Unit) :
    Out (List (String × Int)) :=
  match findZone with
  | BRes.err e =>
      { res := BRes.err ("loopia: could not find zone: " ++ e), st := st,
        evs := [Ev.net "FindZoneByFqdn" [effectiveFQDN domain]] }
  | BRes.ok authZone =>
    match extractSubDomain (effectiveFQDN domain) authZone with
    | none =>
        { res := BRes.err "loopia: unable to extract sub domain", st := st,
          evs := [Ev.net "FindZoneByFqdn" [effectiveFQDN domain]] }
    | some subDomain =>
      let recordID : Int := (mapLookup st token).getD 0
      match removeTXT with
      | BRes.err e =>
          { res := BRes.err ("loopia: failed to remove TXT record: " ++ e), st := st,
            evs := [Ev.net "FindZoneByFqdn" [effectiveFQDN domain], Ev.lock,
                    Ev.net "RemoveTXTRecord" [unFqdn authZone, subDomain, toString recordID],
                    Ev.unlock] }
      | BRes.ok _ =>
        match getTXT with
        | BRes.err e =>
            { res := BRes.err ("loopia: failed to get TXT records: " ++ e), st := st,
              evs := [Ev.net "FindZoneByFqdn" [effectiveFQDN domain], Ev.lock,
                      Ev.net "RemoveTXTRecord" [unFqdn authZone, subDomain, toString recordID],
                      Ev.net "GetTXTRecords" [unFqdn authZone, subDomain], Ev.unlock] }
        | BRes.ok records =>
          if records.length > 0 then
            { res := BRes.ok (), st := st,
              evs := [Ev.net "FindZoneByFqdn" [effectiveFQDN domain], Ev.lock,
                      Ev.net "RemoveTXTRecord" [unFqdn authZone, subDomain, toString recordID],
                      Ev.net "GetTXTRecords" [unFqdn authZone, subDomain], Ev.unlock] }
          else
            match removeSub with
            | BRes.err e =>
                { res := BRes.err ("loopia: failed to remove subdomain: " ++ e), st := st,
                  evs := [Ev.net "FindZoneByFqdn" [effectiveFQDN domain], Ev.lock,
                          Ev.net "RemoveTXTRecord" [unFqdn authZone, subDomain, toString recordID],
                          Ev.net "GetTXTRecords" [unFqdn authZone, subDomain],
                          Ev.net "RemoveSubdomain" [unFqdn authZone, subDomain], Ev.unlock] }
            | BRes.ok _ =>
                { res := BRes.ok (), st := st,
                  evs := [Ev.net "FindZoneByFqdn" [effectiveFQDN domain], Ev.lock,
                          Ev.net "RemoveTXTRecord" [unFqdn authZone, subDomain, toString recordID],
                          Ev.net "GetTXTRecords" [unFqdn authZone, subDomain],
                          Ev.net "RemoveSubdomain" [unFqdn authZone, subDomain], Ev.unlock] }

end Loopia

namespace Hostingde

/-- A record of the hosting.de zone-update response: name, content, ID. -/
structure HRecord where
  name : String
  content : String
  id : String
deriving DecidableEq

/-- `Present` (hostingde package, hurricane.go:304–358): resolve the zone
name (network unless configured), fetch the zone config (network), send the
zone update (network); then, for each response record matching the
challenge name and quoted value, take the lock, store
`info.EffectiveFQDN ↦ record.ID`, and release it; finally read the map
(without the lock) and fail if no ID was stored. -/
def present (st : List (String × String)) (domain _token keyAuth : String)
    (getZoneName : BRes String) (getZone : BRes Unit)
    (updateZone : BRes (List HRecord)) : Out (List (String × String)) :=
  match getZoneName with
  | BRes.err e =>
      { res := BRes.err ("hostingde: could not find zone for domain \"" ++ domain ++ "\": " ++ e),
        st := st, evs := [Ev.net "FindZoneByFqdn" [effectiveFQDN domain]] }
  | BRes.ok zoneName =>
    match getZone with
    | BRes.err e =>
        { res := BRes.err ("hostingde: " ++ e), st := st,
          evs := [Ev.net "FindZoneByFqdn" [effectiveFQDN domain],
                  Ev.net "GetZone" [zoneName]] }
    | BRes.ok _ =>
      match updateZone with
      | BRes.err e =>
          { res := BRes.err ("hostingde: " ++ e), st := st,
            evs := [Ev.net "FindZoneByFqdn" [effectiveFQDN domain],
                    Ev.net "GetZone" [zoneName],
                    Ev.net "UpdateZone" [unFqdn (effectiveFQDN domain)]] }
      | BRes.ok records =>
        let matching := records.filter (fun r =>
          r.name == unFqdn (effectiveFQDN domain) &&
          r.content == "\"" ++ challengeValue keyAuth ++ "\"")
        let st2 := matching.foldl (fun m r => mapInsert m (effectiveFQDN domain) r.id) st
        let evs2 := [Ev.net "FindZoneByFqdn" [effectiveFQDN domain],
                     Ev.net "GetZone" [zoneName],
                     Ev.net "UpdateZone" [unFqdn (effectiveFQDN domain)]] ++
          matching.foldr (fun _ acc => Ev.lock :: Ev.unlock :: acc) []
        if (mapLookup st2 (effectiveFQDN domain)).getD "" == "" then
          { res := BRes.err ("hostingde: error getting ID of just created record, for domain " ++
              domain), st := st2, evs := evs2 }
        else
          { res := BRes.ok (), st := st2, evs := evs2 }

/-- `CleanUp` (hostingde package, hurricane.go:361–405): resolve the zone
name (network unless configured), fetch the zone config (network), delete
the map entry for `info.EffectiveFQDN` under the lock, and only then send
the deleting zone update (network) — the entry is gone whether or not that
network call succeeds. -/
def cleanUp (st : List (String × String)) (domain _token _keyAuth : String)
    (getZoneName : BRes String) (getZone : BRes Unit) (updateZone : BRes Unit) :
    Out (List (String × String)) :=
  match getZoneName with
  | BRes.err e =>
      { res := BRes.err ("hostingde: could not find zone for domain \"" ++ domain ++ "\": " ++ e),
        st := st, evs := [Ev.net "FindZoneByFqdn" [effectiveFQDN domain]] }
  | BRes.ok zoneName =>
    match getZone with
    | BRes.err e =>
        { res := BRes.err ("hostingde: " ++ e), st := st,
          evs := [Ev.net "FindZoneByFqdn" [effectiveFQDN domain],
                  Ev.net "GetZone" [zoneName]] }
    | BRes.ok _ =>
      let st2 := mapErase st (effectiveFQDN domain)
      match updateZone with
      | BRes.err e =>
          { res := BRes.err ("hostingde: " ++ e), st := st2,
            evs := [Ev.net "FindZoneByFqdn" [effectiveFQDN domain],
                    Ev.net "GetZone" [zoneName], Ev.lock, Ev.unlock,
                    Ev.net "UpdateZone" [unFqdn (effectiveFQDN domain)]] }
      | BRes.ok _ =>
          { res := BRes.ok (), st := st2,
            evs := [Ev.net "FindZoneByFqdn" [effectiveFQDN domain],
                    Ev.net "GetZone" [zoneName], Ev.lock, Ev.unlock,
                    Ev.net "UpdateZone" [unFqdn (effectiveFQDN domain)]] }

end Hostingde

/-! ### Dual-path configuration defaults (Config Resolver)

For each adapter, `...EnvDefaults` records the defaults produced by
`NewDefaultConfig()` when none of the provider's environment variables are
set, and `...DeclDefaults` the values of `DefaultConfig()`, which
`ParseConfig` overlays with the supplied document (an empty document changes
nothing).  Durations are nanosecond counts, as in Go's `time.Duration`. -/

/-- `time.Second` in nanoseconds. -/
def nsPerSecond : Int := 1000000000

/-- `time.Minute` in nanoseconds. -/
def nsPerMinute : Int := 60 * nsPerSecond

/-- Modelled from the spec: `dns01.DefaultPropagationTimeout` (external
go-acme/lego library), 60 seconds. -/
def dns01DefaultPropagationTimeout : Int := 60 * nsPerSecond

/-- Modelled from the spec: `dns01.DefaultPollingInterval` (external
go-acme/lego library), 2 seconds. -/
def dns01DefaultPollingInterval : Int := 2 * nsPerSecond

/-- Modelled from the spec: `dns01.DefaultTTL` (external go-acme/lego
library), 120 seconds. -/
def dns01DefaultTTL : Int := 120

/-- The four spec-relevant default fields of a provider `Config`; `none`
when the provider's `Config` has no such field. -/
structure Defaults where
  ttl : Option Int
  propagationTimeout : Option Int
  pollingInterval : Option Int
  sequenceInterval : Option Int
deriving DecidableEq

/-- hosttech `NewDefaultConfig` (hosttech.go:41–50) with no env vars set. -/
def hosttechEnvDefaults : Defaults :=
  { ttl := some 3600, propagationTimeout := some dns01DefaultPropagationTimeout,
    pollingInterval := some dns01DefaultPollingInterval, sequenceInterval := none }

/-- hosttech `DefaultConfig` (hosttech.go:53–62). -/
def hosttechDeclDefaults : Defaults :=
  { ttl := some 3600, propagationTimeout := some dns01DefaultPropagationTimeout,
    pollingInterval := some dns01DefaultPollingInterval, sequenceInterval := none }

/-- hurricane `NewDefaultConfig` (hurricane.go:39–48) with no env vars set. -/
def hurricaneEnvDefaults : Defaults :=
  { ttl := none, propagationTimeout := some (300 * nsPerSecond),
    pollingInterval := some dns01DefaultPollingInterval,
    sequenceInterval := some dns01DefaultPropagationTimeout }

/-- hurricane `DefaultConfig` (hurricane.go:51–60). -/
def hurricaneDeclDefaults : Defaults :=
  { ttl := none, propagationTimeout := some (300 * nsPerSecond),
    pollingInterval := some dns01DefaultPollingInterval,
    sequenceInterval := some dns01DefaultPropagationTimeout }

/-- hostingde `NewDefaultConfig` (hurricane.go:212–222) with no env vars set. -/
def hostingdeEnvDefaults : Defaults :=
  { ttl := some dns01DefaultTTL, propagationTimeout := some (2 * nsPerMinute),
    pollingInterval := some (2 * nsPerSecond), sequenceInterval := none }

/-- hostingde `DefaultConfig` (hurricane.go:225–235). -/
def hostingdeDeclDefaults : Defaults :=
  { ttl := some dns01DefaultTTL, propagationTimeout := some (2 * nsPerMinute),
    pollingInterval := some (2 * nsPerSecond), sequenceInterval := none }

/-- gandiv5 `NewDefaultConfig` (gandiv5.go:55–64) with no env vars set. -/
def gandiv5EnvDefaults : Defaults :=
  { ttl := some 300, propagationTimeout := some (20 * nsPerMinute),
    pollingInterval := some (20 * nsPerSecond), sequenceInterval := none }

/-- gandiv5 `DefaultConfig` (gandiv5.go:67–76). -/
def gandiv5DeclDefaults : Defaults :=
  { ttl := some 300, propagationTimeout := some (20 * nsPerMinute),
    pollingInterval := some (20 * nsPerSecond), sequenceInterval := none }

/-- loopia `NewDefaultConfig` (loopia.go:53–62) with no env vars set. -/
def loopiaEnvDefaults : Defaults :=
  { ttl := some 300, propagationTimeout := some (40 * nsPerMinute),
    pollingInterval := some (60 * nsPerSecond), sequenceInterval := none }

/-- loopia `DefaultConfig` (loopia.go:65–74). -/
def loopiaDeclDefaults : Defaults :=
  { ttl := some 300, propagationTimeout := some (40 * nsPerMinute),
    pollingInterval := some (60 * nsPerSecond), sequenceInterval := none }

/-- variomedia `NewDefaultConfig` (variomedia.go:45–55) with no env vars set. -/
def variomediaEnvDefaults : Defaults :=
  { ttl := some 300, propagationTimeout := some dns01DefaultPropagationTimeout,
    pollingInterval := some dns01DefaultPollingInterval,
    sequenceInterval := some dns01DefaultPropagationTimeout }

/-- variomedia `DefaultConfig` (variomedia.go:58–68). -/
def variomediaDeclDefaults : Defaults :=
  { ttl := some 300, propagationTimeout := some dns01DefaultPropagationTimeout,
    pollingInterval := some dns01DefaultPollingInterval,
    sequenceInterval := some dns01DefaultPropagationTimeout }

/-- linode `NewDefaultConfig` (src/unnamed/part_002, linode package) with no
env vars set: `PropagationTimeout: env.GetOrDefaultSecond(EnvPropagationTimeout, 0)`. -/
def linodeEnvDefaults : Defaults :=
  { ttl := some 300, propagationTimeout := some 0,
    pollingInterval := some (15 * nsPerSecond), sequenceInterval := none }

/-- linode `DefaultConfig` (src/unnamed/part_002, linode package):
`PropagationTimeout: 60 * time.Second`. -/
def linodeDeclDefaults : Defaults :=
  { ttl := some 300, propagationTimeout := some (60 * nsPerSecond),
    pollingInterval := some (15 * nsPerSecond), sequenceInterval := none }

/-! ### Registry (src/dns_provider.go) -/

/-- The case labels of the `switch name` in `NewDNSChallengeProviderByName`
(dns_provider.go:141–544), in source order; several labels are documented
aliases of one backend (`fastdns`/`edgedns`, `linodev4`/`linode`,
`domainnameshop`/`domeneshop`). -/
def dispatchNames : List String := [
  "acme-dns", "alidns", "allinkl", "arvancloud", "azure", "azuredns",
  "auroradns", "autodns", "bindman", "bluecat", "brandit", "bunny",
  "checkdomain", "civo", "clouddns", "cloudflare", "cloudns", "cloudru",
  "cloudxns", "conoha", "constellix", "cpanel", "derak", "desec",
  "designate", "digitalocean", "dnshomede", "dnsimple", "dnsmadeeasy",
  "dnspod", "dode", "domeneshop", "domainnameshop", "dreamhost", "duckdns",
  "dyn", "dynu", "easydns", "edgedns", "fastdns", "efficientip", "epik",
  "exec", "exoscale", "freemyip", "gandi", "gandiv5", "gcloud", "gcore",
  "glesys", "godaddy", "googledomains", "hetzner", "hostingde", "hosttech",
  "httpnet", "httpreq", "hurricane", "hyperone", "ibmcloud", "iij",
  "iijdpf", "infoblox", "infomaniak", "internetbs", "inwx", "ionos",
  "ipv64", "iwantmyname", "joker", "liara", "lightsail", "linode",
  "linodev4", "liquidweb", "loopia", "luadns", "mailinabox", "manual",
  "metaname", "mydnsjp", "mythicbeasts", "namecheap", "namedotcom",
  "namesilo", "nearlyfreespeech", "netcup", "netlify", "nicmanager",
  "nifcloud", "njalla", "nodion", "ns1", "oraclecloud", "otc", "ovh",
  "pdns", "plesk", "porkbun", "rackspace", "rcodezero", "regru", "rfc2136",
  "rimuhosting", "route53", "safedns", "sakuracloud", "scaleway",
  "selectel", "selectelv2", "servercow", "shellrent", "simply", "sonic",
  "stackpath", "tencentcloud", "transip", "ultradns", "variomedia",
  "vegadns", "vercel", "versio", "vinyldns", "vkcloud", "vscale", "vultr",
  "webnames", "websupport", "wedos", "yandex", "yandex360", "yandexcloud",
  "zoneee", "zonomi"
]

/-- The case labels of the `switch name` in
`GetDNSChallengeProviderConfigTemple` (dns_provider.go:683–952), in source
order. -/
def templeNames : List String := [
  "acme-dns", "alidns", "allinkl", "arvancloud", "azure", "azuredns",
  "auroradns", "autodns", "bindman", "bluecat", "brandit", "bunny",
  "checkdomain", "civo", "clouddns", "cloudflare", "cloudns", "cloudru",
  "cloudxns", "conoha", "constellix", "cpanel", "derak", "desec",
  "designate", "digitalocean", "dnshomede", "dnsimple", "dnsmadeeasy",
  "dnspod", "dode", "domeneshop", "domainnameshop", "dreamhost", "duckdns",
  "dyn", "dynu", "easydns", "edgedns", "fastdns", "efficientip", "epik",
  "exec", "exoscale", "freemyip", "gandi", "gandiv5", "gcloud", "gcore",
  "glesys", "godaddy", "googledomains", "hetzner", "hostingde", "hosttech",
  "httpnet", "httpreq", "hurricane", "hyperone", "ibmcloud", "iij",
  "iijdpf", "infoblox", "infomaniak", "internetbs", "inwx", "ionos",
  "ipv64", "iwantmyname", "joker", "liara", "lightsail", "linode",
  "linodev4", "liquidweb", "loopia", "luadns", "mailinabox", "manual",
  "metaname", "mydnsjp", "mythicbeasts", "namecheap", "namedotcom",
  "namesilo", "nearlyfreespeech", "netcup", "netlify", "nicmanager",
  "nifcloud", "njalla", "nodion", "ns1", "oraclecloud", "otc", "ovh",
  "pdns", "plesk", "porkbun", "rackspace", "rcodezero", "regru", "rfc2136",
  "rimuhosting", "route53", "safedns", "sakuracloud", "scaleway",
  "selectel", "selectelv2", "servercow", "shellrent", "simply", "sonic",
  "stackpath", "tencentcloud", "transip", "ultradns", "variomedia",
  "vegadns", "vercel", "versio", "vinyldns", "vkcloud", "vscale", "vultr",
  "webnames", "websupport", "wedos", "yandex", "yandex360", "yandexcloud",
  "zoneee", "zonomi"
]

/-- `NewDNSChallengeProviderByName` (dns_provider.go:141–544), abstracted
over the per-provider branch bodies: a matched case hands control to that
provider package (its `ParseConfig`/constructor); the `default` case builds
the `unrecognized DNS provider` error and constructs nothing. -/
inductive Dispatch where
  | constructed (pkg : String)
  | unrecognized (msg : String)
deriving DecidableEq

/-- Whether a dispatch outcome invoked any provider package code. -/
def Dispatch.invokesProvider : Dispatch → Bool
  | Dispatch.constructed _ => true
  | Dispatch.unrecognized _ => false

def newDNSChallengeProviderByName (name : String) : Dispatch :=
  if name ∈ dispatchNames then Dispatch.constructed name
  else Dispatch.unrecognized ("unrecognized DNS provider: " ++ name)

/-- The `([]byte, error)` pair returned by
`GetDNSChallengeProviderConfigTemple`. -/
structure TempleOut where
  temple : Option String
  error : Option String
deriving DecidableEq

/-- `GetDNSChallengeProviderConfigTemple` (dns_provider.go:683–952): every
matched case has an empty body and falls through to `return nil, nil`; only
the `default` case returns an error. -/
def getDNSChallengeProviderConfigTemple (name : String) : TempleOut :=
  if name ∈ templeNames then { temple := none, error := none }
  else { temple := none, error := some ("dns provider \"" ++ name ++ "\" not supported") }

/-! ### Lifecycle-map lemmas -/

theorem mapLookup_insert_self {α : Type} (m : List (String × α)) (k : String) (v : α) :
    mapLookup (mapInsert m k v) k = some v := by
  simp [mapLookup, mapInsert]

theorem mapLookup_filter_ne {α : Type} (m : List (String × α)) {k q : String}
    (h : q ≠ k) : mapLookup (m.filter (fun p => p.1 != k)) q = mapLookup m q := by
  induction m with
  | nil => rfl
  | cons p t ih =>
      by_cases hpk : p.1 = k
      · have hkeep : (p.1 != k) = false := by simp [hpk]
        have hpq : (p.1 == q) = false := by
          simp only [beq_eq_false_iff_ne]
          exact fun hq => h (hq ▸ hpk ▸ rfl)
        simp [List.filter_cons, hkeep, mapLookup, hpq, ih]
      · have hkeep : (p.1 != k) = true := by simp [hpk]
        by_cases hpq : p.1 = q
        · simp [List.filter_cons, hkeep, mapLookup, hpq, h]
        · simp [List.filter_cons, hkeep, mapLookup, hpq, ih]

theorem mapLookup_insert_ne {α : Type} (m : List (String × α)) {k q : String}
    (h : q ≠ k) (v : α) : mapLookup (mapInsert m k v) q = mapLookup m q := by
  have hkq : (k == q) = false := by
    simp only [beq_eq_false_iff_ne]
    exact fun he => h he.symm
  simp [mapInsert, mapLookup, hkq, mapLookup_filter_ne m h]

theorem mapErase_of_lookup_none {α : Type} (m : List (String × α)) (k : String)
    (h : mapLookup m k = none) : mapErase m k = m := by
  induction m with
  | nil => rfl
  | cons p t ih =>
      by_cases hpk : p.1 = k
      · simp [mapLookup, hpk] at h
      · have hk : (p.1 == k) = false := by simp [hpk]
        simp only [mapLookup, hk, Bool.false_eq_true, if_false] at h
        have hcond : (p.1 != k) = true := by simp [hpk]
        have ht : mapErase t k = t := ih h
        simp only [mapErase] at ht ⊢
        simp [List.filter_cons, hcond, ht]

/-! ### Zone-resolution lemmas -/

theorem findZoneLabels_longest (known : List (List String)) (f z : List String)
    (hz : z ∈ known) (hsuf : z <:+ f) :
    ∃ r, findZoneLabels known f = some r ∧ r ∈ known ∧ r <:+ f ∧
      z.length ≤ r.length := by
  induction f with
  | nil =>
      have hz0 : z = [] := List.suffix_nil.mp hsuf
      subst hz0
      exact ⟨[], by simp [findZoneLabels, hz], hz, List.suffix_rfl, le_refl _⟩
  | cons l ls ih =>
      by_cases hmem : (l :: ls) ∈ known
      · exact ⟨l :: ls, by simp [findZoneLabels, hmem], hmem, List.suffix_rfl,
          hsuf.length_le⟩
      · have hne : z ≠ l :: ls := fun he => hmem (he ▸ hz)
        have hsuf2 : z <:+ ls := by
          rcases List.suffix_cons_iff.mp hsuf with h1 | h2
          · exact absurd h1 hne
          · exact h2
        obtain ⟨r, hr, hrk, hrs, hlen⟩ := ih hsuf2
        exact ⟨r, by simp [findZoneLabels, hmem, hr], hrk,
          hrs.trans (List.suffix_cons l ls), hlen⟩

theorem extractSubDomainLabels_isSuffix (f z : List String) (h : z <:+ f) :
    extractSubDomainLabels f z = some (f.take (f.length - z.length)) ∧
    f.take (f.length - z.length) ++ z = f := by
  obtain ⟨t, ht⟩ := h
  subst ht
  have hlen : (t ++ z).length - z.length = t.length := by simp
  have hdrop : (t ++ z).drop t.length = z := List.drop_left t z
  have htake : (t ++ z).take t.length = t := List.take_left t z
  constructor
  · simp [extractSubDomainLabels, hlen, hdrop, htake]
  · rw [hlen, htake]

/-! ## Claim theorems -/

/-- C1: the spec's uniform contract — `NewDNSProviderConfig(nil)` fails with
a ConfigError for every adapter — is the behaviour of the 46 adapters that
begin with the `config == nil` guard (hosttech, gandiv5, loopia shown here),
but variomedia's constructor omits the guard and dereferences the nil
config, a run-time panic rather than an error: the code contradicts the
uniform pattern at the failing input `NewDNSProviderConfig(nil)`. -/
theorem variomedia_nil_config_panics :
    Variomedia.newDNSProviderConfig none = Ctor.panics ∧
    Hosttech.newDNSProviderConfig none =
      Ctor.err "hosttech: the configuration of the DNS provider is nil" ∧
    Gandiv5.newDNSProviderConfig none =
      Ctor.err "gandiv5: the configuration of the DNS provider is nil" ∧
    Loopia.newDNSProviderConfig none =
      Ctor.err "loopia: the configuration of the DNS provider is nil" := by
  exact ⟨rfl, rfl, rfl, rfl⟩

/-- A loopia config whose ttl 100 is below the minimum of 300. -/
def loopiaLowTTLConfig : Loopia.Config :=
  { baseURL := "", apiUser := "u", apiPassword := "p",
    propagationTimeout := 0, pollingInterval := 0, ttl := 100 }

/-- A gandiv5 config whose ttl 100 is below `minTTL`. -/
def gandiv5LowTTLConfig : Gandiv5.Config :=
  { baseURL := "", apiKey := "", personalAccessToken := "tok",
    propagationTimeout := 0, pollingInterval := 0, ttl := 100 }

/-- C5 counterexample: loopia has a backend-specific minimum TTL of 300, yet
`NewDNSProviderConfig` on a config with ttl 100 succeeds, silently adjusting
the ttl to 300 — construction does not fail as the claim requires. -/
theorem loopia_ttl_clamp_counterexample :
    Loopia.newDNSProviderConfig (some loopiaLowTTLConfig) =
      Ctor.ok { config := { loopiaLowTTLConfig with ttl := 300 },
                inProgressInfo := [] } := by
  decide

/-- C5 amended: adapters with a TTL minimum mostly reject a too-low ttl at
construction (gandiv5 fails with the invalid-TTL error whenever credentials
are present and `ttl < minTTL`), but loopia is the exception: it accepts the
config and silently raises the ttl to its minimum of 300. -/
theorem ttl_minimum_validation_amended :
    (∀ c : Gandiv5.Config, (c.apiKey == "" && c.personalAccessToken == "") = false →
      c.ttl < Gandiv5.minTTL →
      Gandiv5.newDNSProviderConfig (some c) =
        Ctor.err ("gandiv5: invalid TTL, TTL (" ++ toString c.ttl ++
          ") must be greater than " ++ toString Gandiv5.minTTL)) ∧
    (∀ c : Loopia.Config, (c.apiUser == "" || c.apiPassword == "") = false →
      c.ttl < 300 →
      Loopia.newDNSProviderConfig (some c) =
        Ctor.ok { config := { c with ttl := 300 }, inProgressInfo := [] }) := by
  constructor
  · intro c hcred httl
    simp only [Gandiv5.newDNSProviderConfig, hcred, Bool.false_eq_true, if_false,
      if_pos httl]
  · intro c hcred httl
    simp only [Loopia.newDNSProviderConfig, hcred, Bool.false_eq_true, if_false,
      if_pos httl]

/-- C5 amended witness: concrete instances of both conjuncts at ttl 100. -/
theorem ttl_minimum_validation_amended_witness :
    ((gandiv5LowTTLConfig.apiKey == "" && gandiv5LowTTLConfig.personalAccessToken == "") = false ∧
      gandiv5LowTTLConfig.ttl < Gandiv5.minTTL ∧
      Gandiv5.newDNSProviderConfig (some gandiv5LowTTLConfig) =
        Ctor.err ("gandiv5: invalid TTL, TTL (" ++ toString gandiv5LowTTLConfig.ttl ++
          ") must be greater than " ++ toString Gandiv5.minTTL)) ∧
    ((loopiaLowTTLConfig.apiUser == "" || loopiaLowTTLConfig.apiPassword == "") = false ∧
      loopiaLowTTLConfig.ttl < 300 ∧
      Loopia.newDNSProviderConfig (some loopiaLowTTLConfig) =
        Ctor.ok { config := { loopiaLowTTLConfig with ttl := 300 },
                  inProgressInfo := [] }) := by
  refine ⟨⟨by decide, by decide, ?_⟩, ⟨by decide, by decide, ?_⟩⟩
  · exact ttl_minimum_validation_amended.1 _ (by decide) (by decide)
  · exact ttl_minimum_validation_amended.2 _ (by decide) (by decide)

/-- C7 counterexample: linode's two construction paths do not converge with
no environment variables set — the environment path defaults
propagationTimeout to 0 while the declarative path defaults it to 60s. -/
theorem linode_defaults_diverge_counterexample :
    linodeEnvDefaults ≠ linodeDeclDefaults ∧
    linodeEnvDefaults.propagationTimeout = some 0 ∧
    linodeDeclDefaults.propagationTimeout = some (60 * nsPerSecond) := by
  exact ⟨by decide, rfl, rfl⟩

/-- C7 amended: with no relevant environment variables set, the environment
path (`NewDefaultConfig`) and the declarative path (`DefaultConfig` overlaid
with an empty document) yield identical ttl / propagationTimeout /
pollingInterval / sequenceInterval defaults for every modelled adapter
except linode, whose propagationTimeout defaults differ (0 vs 60s) though
its ttl and pollingInterval agree.  (Rejection convergence is structural:
both paths feed the same `NewDNSProviderConfig`.) -/
theorem config_defaults_convergence_amended :
    hosttechEnvDefaults = hosttechDeclDefaults ∧
    hurricaneEnvDefaults = hurricaneDeclDefaults ∧
    hostingdeEnvDefaults = hostingdeDeclDefaults ∧
    gandiv5EnvDefaults = gandiv5DeclDefaults ∧
    loopiaEnvDefaults = loopiaDeclDefaults ∧
    variomediaEnvDefaults = variomediaDeclDefaults ∧
    linodeEnvDefaults.ttl = linodeDeclDefaults.ttl ∧
    linodeEnvDefaults.pollingInterval = linodeDeclDefaults.pollingInterval ∧
    linodeEnvDefaults.propagationTimeout ≠ linodeDeclDefaults.propagationTimeout := by
  refine ⟨rfl, rfl, rfl, rfl, rfl, rfl, rfl, rfl, by decide⟩

/-- One successful hosttech `Present` step for the token / backend-record-ID
pair `p`, with a fixed domain and successful backend outcomes: the N-token
scenario on one adapter instance. -/
def hosttechPresentStep (st : List (String × Int)) (p : String × Int) :
    List (String × Int) :=
  (Hosttech.present st "example.com" p.1 (BRes.ok "example.com.")
    (BRes.ok 1) (BRes.ok p.2)).st

theorem hosttechPresentStep_eq (st : List (String × Int)) (p : String × Int) :
    hosttechPresentStep st p = mapInsert st p.1 p.2 := rfl

theorem hosttech_fold_lookup_not_mem (ops : List (String × Int))
    (st : List (String × Int)) (t : String) (h : t ∉ ops.map Prod.fst) :
    mapLookup (ops.foldl hosttechPresentStep st) t = mapLookup st t := by
  induction ops generalizing st with
  | nil => rfl
  | cons a rest ih =>
      simp only [List.map_cons, List.mem_cons, not_or] at h
      obtain ⟨h1, h2⟩ := h
      simp only [List.foldl_cons]
      rw [ih _ h2, hosttechPresentStep_eq, mapLookup_insert_ne _ h1]

theorem hosttech_fold_lookup_of_mem (ops : List (String × Int))
    (st : List (String × Int)) (t : String) (i : Int)
    (hnd : (ops.map Prod.fst).Nodup) (hmem : (t, i) ∈ ops) :
    mapLookup (ops.foldl hosttechPresentStep st) t = some i := by
  induction ops generalizing st with
  | nil => cases hmem
  | cons a rest ih =>
      simp only [List.map_cons, List.nodup_cons] at hnd
      obtain ⟨hna, hnd2⟩ := hnd
      rcases List.mem_cons.mp hmem with he | hm
      · obtain rfl := he.symm
        simp only [List.foldl_cons]
        rw [hosttech_fold_lookup_not_mem rest _ t hna, hosttechPresentStep_eq,
          mapLookup_insert_self]
      · simp only [List.foldl_cons]
        exact ih _ hnd2 hm

/-- C2 counterexample: gandiv5 (like hostingde) stores the in-progress
record under `info.EffectiveFQDN`, not under `token`.  Two Present calls
with distinct tokens for the same domain on one instance collapse to a
single entry; the CleanUp carrying `tokenA` erases it, and the CleanUp
carrying `tokenB` then finds no tracked state and silently no-ops — the
claimed per-token independent retrievability fails. -/
theorem gandiv5_present_keys_by_fqdn_counterexample :
    ((Gandiv5.present [] "example.com" "tokenA" (BRes.ok "example.com.")
        (BRes.ok ())).st =
      [("_acme-challenge.example.com.", ("example.com.", "_acme-challenge"))]) ∧
    mapLookup (Gandiv5.present [] "example.com" "tokenA"
        (BRes.ok "example.com.") (BRes.ok ())).st "tokenA" = none ∧
    ((Gandiv5.present (Gandiv5.present [] "example.com" "tokenA"
          (BRes.ok "example.com.") (BRes.ok ())).st
        "example.com" "tokenB" (BRes.ok "example.com.") (BRes.ok ())).st =
      [("_acme-challenge.example.com.", ("example.com.", "_acme-challenge"))]) ∧
    ((Gandiv5.cleanUp
        [("_acme-challenge.example.com.", ("example.com.", "_acme-challenge"))]
        "example.com" "tokenA" (BRes.ok ())).st = []) ∧
    ((Gandiv5.cleanUp [] "example.com" "tokenB" (BRes.ok ())).res = BRes.ok () ∧
     (Gandiv5.cleanUp [] "example.com" "tokenB" (BRes.ok ())).evs =
       [Ev.lock, Ev.unlock]) := by
  decide

/-- C2 amended: hosttech (and loopia) do key their lifecycle maps by
`token`: after any sequence of successful Present calls with pairwise
distinct tokens on one instance, each token's stored backend record ID is
independently retrievable.  gandiv5 and hostingde instead key by
`info.EffectiveFQDN` (the insert below ignores the token), so challenges
sharing a FQDN interfere. -/
theorem lifecycle_map_keying_amended :
    (∀ (ops : List (String × Int)) (t : String) (i : Int),
      (ops.map Prod.fst).Nodup → (t, i) ∈ ops →
      mapLookup (ops.foldl hosttechPresentStep []) t = some i) ∧
    (∀ (st : List (String × Int)) (token : String),
      (Loopia.present st "example.com" token "ka" (BRes.ok "example.com.")
        (BRes.ok ()) (BRes.ok [(7, "ka")])).st = mapInsert st token 7) ∧
    (∀ (st : List (String × (String × String))) (token : String),
      (Gandiv5.present st "example.com" token (BRes.ok "example.com.")
        (BRes.ok ())).st =
      mapInsert st "_acme-challenge.example.com." ("example.com.", "_acme-challenge")) := by
  refine ⟨?_, ?_, ?_⟩
  · intro ops t i hnd hmem
    exact hosttech_fold_lookup_of_mem ops [] t i hnd hmem
  · intro st token
    rfl
  · intro st token
    rfl

/-- C2 amended witness: two distinct tokens on one hosttech instance, each
retrievable; plus the concrete loopia / gandiv5 insertions. -/
theorem lifecycle_map_keying_amended_witness :
    (([("t1", 5), ("t2", 7)].map Prod.fst).Nodup ∧
      ("t2", (7 : Int)) ∈ [("t1", 5), ("t2", 7)] ∧
      mapLookup ([("t1", 5), ("t2", 7)].foldl hosttechPresentStep []) "t2" = some 7) ∧
    (Loopia.present [] "example.com" "t1" "ka" (BRes.ok "example.com.")
      (BRes.ok ()) (BRes.ok [(7, "ka")])).st = mapInsert [] "t1" 7 ∧
    (Gandiv5.present [] "example.com" "t1" (BRes.ok "example.com.")
      (BRes.ok ())).st =
      mapInsert [] "_acme-challenge.example.com." ("example.com.", "_acme-challenge") := by
  refine ⟨⟨by decide, by decide, ?_⟩, ?_, ?_⟩
  · exact lifecycle_map_keying_amended.1 [("t1", 5), ("t2", 7)] "t2" 7
      (by decide) (by decide)
  · exact lifecycle_map_keying_amended.2.1 [] "t1"
  · exact lifecycle_map_keying_amended.2.2 [] "t1"

/-- The record-list guard of loopia's CleanUp, evaluated at a cons cell. -/
theorem ite_cons_length_pos {β : Type} (r : Int × String)
    (rest : List (Int × String)) (a b : β) :
    (if (r :: rest).length > 0 then a else b) = a := by simp

/-- The record-list guard of loopia's CleanUp, evaluated at the empty list. -/
theorem ite_nil_length_pos {β : Type} (a b : β) :
    (if ([] : List (Int × String)).length > 0 then a else b) = b := by simp

/-- C3 counterexample: hosttech's CleanUp never removes the map entry.
After a successful CleanUp for token `tok` the entry `tok ↦ 42` is still
tracked, so a second CleanUp with the same token finds tracked state —
contradicting the claim that the entry is removed regardless of outcome. -/
theorem hosttech_cleanup_keeps_entry_counterexample :
    (Hosttech.cleanUp (mapInsert [] "tok" 42) "example.com" "tok"
        (BRes.ok "example.com.") (BRes.ok 7) (BRes.ok ())).res = BRes.ok () ∧
    (Hosttech.cleanUp (mapInsert [] "tok" 42) "example.com" "tok"
        (BRes.ok "example.com.") (BRes.ok 7) (BRes.ok ())).st =
      mapInsert [] "tok" 42 ∧
    mapLookup (Hosttech.cleanUp (mapInsert [] "tok" 42) "example.com" "tok"
        (BRes.ok "example.com.") (BRes.ok 7) (BRes.ok ())).st "tok" = some 42 := by
  decide

/-- C3 amended: the entry-removal discipline is split.  gandiv5 removes the
(FQDN-keyed) entry before the backend delete, hence regardless of the delete
outcome, and hostingde does the same once it reaches its zone update; but
hosttech and loopia never remove their map entries in CleanUp — the map is
returned unchanged on every path, succeed or fail. -/
theorem cleanup_map_removal_amended :
    (∀ (st : List (String × (String × String))) (d t : String) (del : BRes Unit),
      (Gandiv5.cleanUp st d t del).st = mapErase st (effectiveFQDN d)) ∧
    (∀ (st : List (String × String)) (d t k zn : String) (upd : BRes Unit),
      (Hostingde.cleanUp st d t k (BRes.ok zn) (BRes.ok ()) upd).st =
        mapErase st (effectiveFQDN d)) ∧
    (∀ (st : List (String × Int)) (d t : String) (fz : BRes String)
       (gz : BRes Int) (del : BRes Unit),
      (Hosttech.cleanUp st d t fz gz del).st = st) ∧
    (∀ (st : List (String × Int)) (d t : String) (fz : BRes String)
       (rm : BRes Unit) (gt : BRes (List (Int × String))) (rs : BRes Unit),
      (Loopia.cleanUp st d t fz rm gt rs).st = st) := by
  refine ⟨?_, ?_, ?_, ?_⟩
  · intro st d t del
    unfold Gandiv5.cleanUp
    cases hl : mapLookup st (effectiveFQDN d) with
    | none => exact (mapErase_of_lookup_none st _ hl).symm
    | some info => cases del <;> rfl
  · intro st d t k zn upd
    cases upd <;> rfl
  · intro st d t fz gz del
    unfold Hosttech.cleanUp
    cases fz with
    | err e => rfl
    | ok z =>
        cases gz with
        | err e => rfl
        | ok zid =>
            cases hl : mapLookup st t with
            | none => rfl
            | some rid => cases del <;> rfl
  · intro st d t fz rm gt rs
    cases fz with
    | err e => rfl
    | ok z =>
        simp only [Loopia.cleanUp]
        cases hx : extractSubDomain (effectiveFQDN d) z with
        | none => rfl
        | some sub =>
            cases rm with
            | err e => rfl
            | ok u =>
                cases gt with
                | err e => rfl
                | ok records =>
                    cases records with
                    | nil =>
                        simp only [ite_nil_length_pos]
                        cases rs <;> rfl
                    | cons r rest =>
                        simp only [ite_cons_length_pos]

/-- C4 counterexample: loopia's CleanUp requires a tracked backend record
ID, yet on a token with no prior Present it does not fail: the Go map read
yields the zero value, a `RemoveTXTRecord` call is issued with the
arbitrary record ID 0, and the call returns success. -/
theorem loopia_cleanup_unknown_token_counterexample :
    (Loopia.cleanUp [] "example.com" "tok" (BRes.ok "example.com.")
        (BRes.ok ()) (BRes.ok [(5, "x")]) (BRes.ok ())).res = BRes.ok () ∧
    Ev.net "RemoveTXTRecord" ["example.com", "_acme-challenge", "0"] ∈
      (Loopia.cleanUp [] "example.com" "tok" (BRes.ok "example.com.")
        (BRes.ok ()) (BRes.ok [(5, "x")]) (BRes.ok ())).evs := by
  decide

/-- C4 amended: hosttech's CleanUp on a token with no tracked entry returns
the unknown-record error without issuing a delete; loopia's instead issues
`RemoveTXTRecord` with the Go zero-value record ID 0 (and can silently
succeed), on every backend-outcome path. -/
theorem cleanup_unknown_token_amended :
    (∀ (st : List (String × Int)) (d t zn : String) (zid : Int) (del : BRes Unit),
      mapLookup st t = none →
      (Hosttech.cleanUp st d t (BRes.ok zn) (BRes.ok zid) del).res =
        BRes.err ("hosttech: unknown record ID for '" ++ effectiveFQDN d ++
          "' '" ++ t ++ "'") ∧
      (Hosttech.cleanUp st d t (BRes.ok zn) (BRes.ok zid) del).evs =
        [Ev.net "FindZoneByFqdn" [effectiveFQDN d], Ev.net "GetZone" [unFqdn zn],
         Ev.lock, Ev.unlock]) ∧
    (∀ (st : List (String × Int)) (t : String) (rm : BRes Unit)
       (gt : BRes (List (Int × String))) (rs : BRes Unit),
      mapLookup st t = none →
      Ev.net "RemoveTXTRecord" ["example.com", "_acme-challenge", "0"] ∈
        (Loopia.cleanUp st "example.com" t (BRes.ok "example.com.") rm gt rs).evs) := by
  constructor
  · intro st d t zn zid del h
    unfold Hosttech.cleanUp
    rw [h]
    exact ⟨rfl, rfl⟩
  · intro st t rm gt rs h
    simp only [Loopia.cleanUp]
    rw [h]
    cases rm with
    | err e =>
        exact List.mem_cons_of_mem _ (List.mem_cons_of_mem _ (List.mem_cons_self _ _))
    | ok u =>
        cases gt with
        | err e =>
            exact List.mem_cons_of_mem _ (List.mem_cons_of_mem _ (List.mem_cons_self _ _))
        | ok records =>
            cases records with
            | nil =>
                simp only [ite_nil_length_pos]
                cases rs with
                | err e =>
                    exact List.mem_cons_of_mem _ (List.mem_cons_of_mem _ (List.mem_cons_self _ _))
                | ok v =>
                    exact List.mem_cons_of_mem _ (List.mem_cons_of_mem _ (List.mem_cons_self _ _))
            | cons r rest =>
                simp only [ite_cons_length_pos]
                exact List.mem_cons_of_mem _ (List.mem_cons_of_mem _ (List.mem_cons_self _ _))

/-- C4 amended witness: both conjuncts at the empty lifecycle map and token
`tok`. -/
theorem cleanup_unknown_token_amended_witness :
    (mapLookup ([] : List (String × Int)) "tok" = none ∧
      ((Hosttech.cleanUp [] "example.com" "tok" (BRes.ok "example.com.")
          (BRes.ok 7) (BRes.ok ())).res =
        BRes.err ("hosttech: unknown record ID for '" ++
          effectiveFQDN "example.com" ++ "' '" ++ "tok" ++ "'") ∧
      (Hosttech.cleanUp [] "example.com" "tok" (BRes.ok "example.com.")
          (BRes.ok 7) (BRes.ok ())).evs =
        [Ev.net "FindZoneByFqdn" [effectiveFQDN "example.com"],
         Ev.net "GetZone" [unFqdn "example.com."], Ev.lock, Ev.unlock])) ∧
    Ev.net "RemoveTXTRecord" ["example.com", "_acme-challenge", "0"] ∈
      (Loopia.cleanUp [] "example.com" "tok" (BRes.ok "example.com.")
        (BRes.ok ()) (BRes.ok []) (BRes.ok ())).evs := by
  refine ⟨⟨rfl, ?_⟩, ?_⟩
  · exact cleanup_unknown_token_amended.1 [] "example.com" "tok"
      "example.com." 7 (BRes.ok ()) rfl
  · exact cleanup_unknown_token_amended.2 [] "tok" (BRes.ok ())
      (BRes.ok []) (BRes.ok ()) rfl

/-- The lock/unlock pairs emitted by hostingde's per-record store loop are
balanced and contain no network call. -/
theorem heldDuringNet_lockUnlockPairs (l : List Hostingde.HRecord) :
    heldDuringNet (l.foldr (fun _ acc => Ev.lock :: Ev.unlock :: acc) []) 0 = false := by
  induction l with
  | nil => rfl
  | cons a t ih => exact ih

/-- C6 counterexample: gandiv5 acquires the instance mutex and then performs
the backend create (Present) / delete (CleanUp) while still holding it, and
loopia's CleanUp holds the mutex across its remove / list / remove-subdomain
calls — the lock is held during network I/O. -/
theorem lock_across_network_counterexample :
    heldDuringNet (Gandiv5.present [] "example.com" "tok"
      (BRes.ok "example.com.") (BRes.ok ())).evs 0 = true ∧
    heldDuringNet (Gandiv5.cleanUp
      [("_acme-challenge.example.com.", ("example.com.", "_acme-challenge"))]
      "example.com" "tok" (BRes.ok ())).evs 0 = true ∧
    heldDuringNet (Loopia.cleanUp [] "example.com" "tok"
      (BRes.ok "example.com.") (BRes.ok ()) (BRes.ok [(5, "x")])
      (BRes.ok ())).evs 0 = true := by
  decide

/-- C6 amended: hosttech and hostingde take the instance lock only around
map operations (never across a backend call), and loopia's Present locks
only after its last backend call; but gandiv5's Present (and its CleanUp on
a tracked entry) and loopia's CleanUp hold the instance mutex across backend
network calls, on every backend-outcome path that reaches them. -/
theorem lock_discipline_amended :
    (∀ st d t fz gz ar, heldDuringNet (Hosttech.present st d t fz gz ar).evs 0 = false) ∧
    (∀ st d t fz gz del, heldDuringNet (Hosttech.cleanUp st d t fz gz del).evs 0 = false) ∧
    (∀ st d t k gzn gz upd, heldDuringNet (Hostingde.present st d t k gzn gz upd).evs 0 = false) ∧
    (∀ st d t k gzn gz upd, heldDuringNet (Hostingde.cleanUp st d t k gzn gz upd).evs 0 = false) ∧
    (∀ st d t k fz aT gT, heldDuringNet (Loopia.present st d t k fz aT gT).evs 0 = false) ∧
    (∀ st t add, heldDuringNet (Gandiv5.present st "example.com" t
      (BRes.ok "example.com.") add).evs 0 = true) ∧
    (∀ st t rm gt rs, heldDuringNet (Loopia.cleanUp st "example.com" t
      (BRes.ok "example.com.") rm gt rs).evs 0 = true) := by
  refine ⟨?_, ?_, ?_, ?_, ?_, ?_, ?_⟩
  · intro st d t fz gz ar
    cases fz with
    | err e => rfl
    | ok z =>
        simp only [Hosttech.present]
        cases gz with
        | err e => rfl
        | ok zid =>
            cases hx : extractSubDomain (effectiveFQDN d) z with
            | none => rfl
            | some sub => cases ar <;> rfl
  · intro st d t fz gz del
    cases fz with
    | err e => rfl
    | ok z =>
        simp only [Hosttech.cleanUp]
        cases gz with
        | err e => rfl
        | ok zid =>
            cases hl : mapLookup st t with
            | none => rfl
            | some rid => cases del <;> rfl
  · intro st d t k gzn gz upd
    cases gzn with
    | err e => rfl
    | ok zn =>
        cases gz with
        | err e => rfl
        | ok u =>
            cases upd with
            | err e => rfl
            | ok records =>
                simp only [Hostingde.present]
                split <;> exact heldDuringNet_lockUnlockPairs _
  · intro st d t k gzn gz upd
    cases gzn with
    | err e => rfl
    | ok zn =>
        cases gz with
        | err e => rfl
        | ok u => cases upd <;> rfl
  · intro st d t k fz aT gT
    cases fz with
    | err e => rfl
    | ok z =>
        simp only [Loopia.present]
        cases hx : extractSubDomain (effectiveFQDN d) z with
        | none => rfl
        | some sub =>
            cases aT with
            | err e => rfl
            | ok u =>
                cases gT with
                | err e => rfl
                | ok recs => rfl
  · intro st t add
    cases add <;> rfl
  · intro st t rm gt rs
    simp only [Loopia.cleanUp]
    cases rm with
    | err e => rfl
    | ok u =>
        cases gt with
        | err e => rfl
        | ok records =>
            cases records with
            | nil =>
                have hx : extractSubDomain (effectiveFQDN "example.com") "example.com." =
                    some "_acme-challenge" := rfl
                simp only [hx, ite_nil_length_pos]
                cases rs <;> rfl
            | cons r rest =>
                have hx : extractSubDomain (effectiveFQDN "example.com") "example.com." =
                    some "_acme-challenge" := rfl
                simp only [hx, ite_cons_length_pos]
                rfl

/-- C8: zone resolution walking label boundaries from the full name toward
the root selects a known zone of maximal length among the matching
suffixes, and the subdomain is the FQDN with that zone suffix (and its
separating dot) removed; in particular
`_acme-challenge.foo.bar.example.com` with known zones
`{example.com, bar.example.com}` resolves to `bar.example.com` with
subdomain `_acme-challenge.foo`. -/
theorem zone_resolution_longest_match :
    (∀ (known : List (List String)) (f z : List String), z ∈ known → z <:+ f →
      ∃ r, findZoneLabels known f = some r ∧ r ∈ known ∧ r <:+ f ∧
        z.length ≤ r.length ∧
        extractSubDomainLabels f r = some (f.take (f.length - r.length)) ∧
        f.take (f.length - r.length) ++ r = f) ∧
    findZoneByFqdn ["example.com", "bar.example.com"]
      "_acme-challenge.foo.bar.example.com." = some "bar.example.com" ∧
    extractSubDomain "_acme-challenge.foo.bar.example.com." "bar.example.com." =
      some "_acme-challenge.foo" := by
  refine ⟨?_, by decide, by decide⟩
  intro known f z hz hsuf
  obtain ⟨r, hr, hrk, hrs, hlen⟩ := findZoneLabels_longest known f z hz hsuf
  obtain ⟨he1, he2⟩ := extractSubDomainLabels_isSuffix f r hrs
  exact ⟨r, hr, hrk, hrs, hlen, he1, he2⟩

/-- C8 witness: the general longest-match statement applied to the labelled
form of the spec's example. -/
theorem zone_resolution_longest_match_witness :
    (["example", "com"] ∈ [["example", "com"], ["bar", "example", "com"]] ∧
      ["example", "com"] <:+ ["_acme-challenge", "foo", "bar", "example", "com"]) ∧
    (∃ r, findZoneLabels [["example", "com"], ["bar", "example", "com"]]
        ["_acme-challenge", "foo", "bar", "example", "com"] = some r ∧
      r ∈ [["example", "com"], ["bar", "example", "com"]] ∧
      r <:+ ["_acme-challenge", "foo", "bar", "example", "com"] ∧
      (["example", "com"] : List String).length ≤ r.length ∧
      extractSubDomainLabels ["_acme-challenge", "foo", "bar", "example", "com"] r =
        some ((["_acme-challenge", "foo", "bar", "example", "com"] : List String).take
          ((["_acme-challenge", "foo", "bar", "example", "com"] : List String).length - r.length)) ∧
      (["_acme-challenge", "foo", "bar", "example", "com"] : List String).take
          ((["_acme-challenge", "foo", "bar", "example", "com"] : List String).length - r.length) ++ r =
        ["_acme-challenge", "foo", "bar", "example", "com"]) :=
  ⟨⟨by decide, ⟨["_acme-challenge", "foo", "bar"], rfl⟩⟩,
   zone_resolution_longest_match.1 _ _ _ (by decide)
     ⟨["_acme-challenge", "foo", "bar"], rfl⟩⟩

/-- C9: `NewDNSChallengeProviderByName` on a name outside the dispatch
table returns the nil provider with the `unrecognized DNS provider` error
naming the requested string, and transfers control to no provider package
(no parser or constructor runs). -/
theorem registry_unknown_name (name : String) (h : name ∉ dispatchNames) :
    newDNSChallengeProviderByName name =
      Dispatch.unrecognized ("unrecognized DNS provider: " ++ name) ∧
    (newDNSChallengeProviderByName name).invokesProvider = false := by
  unfold newDNSChallengeProviderByName
  rw [if_neg h]
  exact ⟨rfl, rfl⟩

/-- C9 witness: the unknown name `doesnotexist`. -/
theorem registry_unknown_name_witness :
    "doesnotexist" ∉ dispatchNames ∧
    (newDNSChallengeProviderByName "doesnotexist" =
      Dispatch.unrecognized ("unrecognized DNS provider: " ++ "doesnotexist") ∧
    (newDNSChallengeProviderByName "doesnotexist").invokesProvider = false) :=
  ⟨by decide, registry_unknown_name "doesnotexist" (by decide)⟩

/-- C10: `GetDNSChallengeProviderConfigTemple` returns `(nil, nil)` for
every name in the dispatch table (its case list equals the dispatch case
list) and a nil template with a non-nil error exactly for names outside
it — no supported provider ever receives an actual template. -/
theorem temple_nil_for_dispatch_names (name : String) :
    (name ∈ dispatchNames →
      getDNSChallengeProviderConfigTemple name = { temple := none, error := none }) ∧
    (name ∉ dispatchNames →
      (getDNSChallengeProviderConfigTemple name).temple = none ∧
      (getDNSChallengeProviderConfigTemple name).error ≠ none) := by
  have hsame : templeNames = dispatchNames := rfl
  constructor
  · intro h
    unfold getDNSChallengeProviderConfigTemple
    rw [hsame, if_pos h]
  · intro h
    unfold getDNSChallengeProviderConfigTemple
    rw [hsame, if_neg h]
    exact ⟨rfl, by simp⟩

/-- C10 witness: the supported name `hosttech` and the unsupported name
`nosuchprovider`. -/
theorem temple_nil_for_dispatch_names_witness :
    ("hosttech" ∈ dispatchNames ∧
      getDNSChallengeProviderConfigTemple "hosttech" = { temple := none, error := none }) ∧
    ("nosuchprovider" ∉ dispatchNames ∧
      (getDNSChallengeProviderConfigTemple "nosuchprovider").temple = none ∧
      (getDNSChallengeProviderConfigTemple "nosuchprovider").error ≠ none) :=
  ⟨⟨by decide, (temple_nil_for_dispatch_names "hosttech").1 (by decide)⟩,
   ⟨by decide, (temple_nil_for_dispatch_names "nosuchprovider").2 (by decide)⟩⟩
